import Mathlib

/-!
Shallow embedding of the BookServer-API repository (Go).

The source keeps two package-level in-memory maps, `CredentialList`
(username to password) and `BookList` (ISBN to book), and a set of HTTP
handlers (`Login`, `Logout`, `SignIn`, `getAllBooks`, `AddNewBook`,
`updateBook`, `deleteBook`) that read and mutate them.  Here the global
maps are passed explicitly: each handler takes the stores it can touch
and returns the status code, the new stores, and any cookie or body it
writes.  Go maps are embedded as association lists with a
replace-or-append insert (the semantics of Go map assignment).  JSON
decoding of a request body is embedded as an `Option` value (`none` is a
decode failure), and the external signing library (`jwt.Sign` with
`jwa.HS256` and the secret key) is a parameter of `Login`, so the
theorems record exactly which algorithm, key and claim set the handler
passes to it.
-/

namespace BookServer

/-- `Author` struct from dataHandler/data.go. -/
structure Author where
  name : String
  home : String
deriving DecidableEq, Repr

/-- `Book` struct from dataHandler/data.go. -/
structure Book where
  name : String
  authors : List Author
  isbn : String
  genre : String
  pub : String
deriving DecidableEq, Repr

/-- `Credentials` struct from dataHandler/data.go. -/
structure Credentials where
  username : String
  password : String
deriving DecidableEq, Repr

/-- Go `map[string]Book` embedded as an association list. -/
def BookDB := List (String × Book)
deriving DecidableEq, Repr

/-- Go `map[string]string` embedded as an association list. -/
def CredentialDB := List (String × String)
deriving DecidableEq, Repr

/-- Go map read `m[k]` with its ok-flag: `some v` when present. -/
def mapLookup {α : Type} (m : List (String × α)) (k : String) : Option α :=
  match m with
  | [] => none
  | (k1, v1) :: rest => if k1 = k then some v1 else mapLookup rest k

/-- Go map assignment `m[k] = v`: replaces the binding when `k` is
present, otherwise appends it. -/
def mapInsert {α : Type} (m : List (String × α)) (k : String) (v : α) :
    List (String × α) :=
  match m with
  | [] => [(k, v)]
  | (k1, v1) :: rest =>
      if k1 = k then (k, v) :: rest else (k1, v1) :: mapInsert rest k v

/-- Go `delete(m, k)`. -/
def mapErase {α : Type} (m : List (String × α)) (k : String) :
    List (String × α) :=
  match m with
  | [] => []
  | (k1, v1) :: rest =>
      if k1 = k then rest else (k1, v1) :: mapErase rest k

/-- HTTP methods, as far as the source inspects them. -/
inductive Method where
  | get
  | post
  | put
  | delete
deriving DecidableEq, Repr

/-- An incoming request, reduced to the data the handlers read.
`jwtCookie` is the session cookie the client carries (none of the
handlers in the source ever reads it); `credBody` and `bookBody` are the
JSON-decoded body (`none` = decode error); `isbnParam` is the `ISBN`
URL parameter (`""` when absent, as `chi.URLParam` returns). -/
structure Request where
  method : Method
  jwtCookie : Option String
  credBody : Option Credentials
  bookBody : Option Book
  isbnParam : String
deriving DecidableEq, Repr

/-- An outgoing cookie: `http.Cookie` with the fields the source sets.
`expires` is a wall-clock timestamp in seconds. -/
structure Cookie where
  name : String
  value : String
  expires : Int
deriving DecidableEq, Repr

/-- The claim set the source builds with
`jwt.NewBuilder().Audience(...).Expiration(...)`. -/
structure Token where
  audience : List String
  expiration : Int
deriving DecidableEq, Repr

/-- Signature algorithms of the external `jwa` package, as far as the
source names them. -/
inductive SigAlg where
  | HS256
deriving DecidableEq, Repr

/-- The hard-coded signing secret `Secret` from authHandler/auth.go. -/
def Secret : String := "this_is_my_secret_key"

/-- `Login` from authHandler/auth.go.  `sign` embeds the external
`jwt.Sign` call (algorithm, key, token; `none` = signing error) and
`now` the `time.Now()` reading.  Returns status, the cookie set (if
any) and the response body text. -/
def Login (sign : SigAlg → String → Token → Option String) (now : Int)
    (r : Request) (creds : CredentialDB) : Nat × Option Cookie × String :=
  match r.credBody with
  | none => (400, none, "Cannot decode data")
  | some cred =>
    match mapLookup creds cred.username with
    | none => (404, none, "User not found")
    | some password =>
      if password ≠ cred.password then
        (404, none, "Wrong password")
      else
        let et : Int := now + 20 * 60
        let token : Token := { audience := ["sabnaj"], expiration := et }
        match sign SigAlg.HS256 Secret token with
        | none => (500, none, "Cannot sign token")
        | some signed =>
            (200, some { name := "jwt", value := signed, expires := et },
             "Login successful")

/-- `Logout` from authHandler/auth.go: unconditionally sets a `jwt`
cookie with empty value and `Expires = time.Now()` and responds 200.
The stores are passed through to state that it never touches them. -/
def Logout (now : Int) (r : Request) (creds : CredentialDB)
    (books : BookDB) : Nat × Cookie × CredentialDB × BookDB :=
  (200, { name := "jwt", value := "", expires := now }, creds, books)

/-- `SignIn` from authHandler/auth.go: registration.  Returns status,
the new credential store and the response body text. -/
def SignIn (r : Request) (creds : CredentialDB) :
    Nat × CredentialDB × String :=
  if r.method ≠ Method.post then
    (405, creds, "Invalid request method")
  else
    match r.credBody with
    | none => (400, creds, "Invalid JSON format")
    | some user =>
      if (mapLookup creds user.username).isSome then
        (409, creds, "User already exists")
      else
        (201, mapInsert creds user.username user.password,
         "User " ++ user.username ++ " registered successfully")

/-- `getAllBooks`: encodes the whole book store; the 500 encode-failure
branch is unreachable for the values of this model, so the handler
returns 200 with the store as its body. -/
def getAllBooks (r : Request) (books : BookDB) : Nat × BookDB :=
  (200, books)

/-- `AddNewBook` from the apiHandler: decode body, reject empty
name/ISBN/authors, reject an existing ISBN, else insert under the
book's own ISBN.  Returns status and the new book store. -/
def AddNewBook (r : Request) (books : BookDB) : Nat × BookDB :=
  match r.bookBody with
  | none => (400, books)
  | some book =>
    if book.name.length = 0 ∨ book.isbn.length = 0 ∨
        book.authors.length = 0 then
      (400, books)
    else if (mapLookup books book.isbn).isSome then
      (409, books)
    else
      (201, mapInsert books book.isbn book)

/-- `deleteBook` from the apiHandler. -/
def deleteBook (r : Request) (books : BookDB) : Nat × BookDB :=
  if r.isbnParam.length = 0 then
    (400, books)
  else if (mapLookup books r.isbnParam).isSome = false then
    (404, books)
  else
    (200, mapErase books r.isbnParam)

/-- `updateBook` from the apiHandler: ISBN param checked first, then
existence, then body decode; on success the decoded book replaces the
record at the URL-parameter key wholesale.  Returns status, the new
store and the response body text. -/
def updateBook (r : Request) (books : BookDB) : Nat × BookDB × String :=
  if r.isbnParam.length = 0 then
    (400, books, "Invalid ISBN")
  else if (mapLookup books r.isbnParam).isSome = false then
    (404, books, "Book does not exist")
  else
    match r.bookBody with
    | none => (400, books, "Cannot decode data")
    | some newBook =>
        (200, mapInsert books r.isbnParam newBook,
         "Book updated successfully")

/-- `author1` from `Init` in dataHandler/data.go. -/
def author1 : Author := { name := "Sadia Sornaly", home := "Korea" }

/-- `author2` from `Init`. -/
def author2 : Author := { name := "Shahana", home := "America" }

/-- `book1` from `Init`. -/
def book1 : Book :=
  { name := "Book 1", authors := [author1, author2], isbn := "ISBN 1",
    genre := "Thriller", pub := "Unknown" }

/-- `book2` from `Init`. -/
def book2 : Book :=
  { name := "Book 2", authors := [author1], isbn := "ISBN 2",
    genre := "Science Fiction", pub := "Tor Books" }

/-- The credential store right after `Init`. -/
def initCreds : CredentialDB := [("sabnaj", "1234"), ("Admin", "5678")]

/-- The book store right after `Init`. -/
def initBooks : BookDB := [("ISBN 1", book1), ("ISBN 2", book2)]

/-! ### Association-list lemmas (Go map semantics) -/

theorem mapLookup_mapInsert_self {α : Type} (m : List (String × α))
    (k : String) (v : α) : mapLookup (mapInsert m k v) k = some v := by
  induction m with
  | nil => simp [mapInsert, mapLookup]
  | cons hd tl ih =>
      obtain ⟨k1, v1⟩ := hd
      by_cases h : k1 = k
      · simp [mapInsert, mapLookup, h]
      · simp [mapInsert, mapLookup, h, ih]

theorem mapInsert_keys {α : Type} (m : List (String × α)) (k : String)
    (v : α) (hmem : (mapLookup m k).isSome) :
    (mapInsert m k v).map Prod.fst = m.map Prod.fst := by
  induction m with
  | nil => simp [mapLookup] at hmem
  | cons hd tl ih =>
      obtain ⟨k1, v1⟩ := hd
      by_cases h : k1 = k
      · simp [mapInsert, h]
      · simp [mapLookup, h] at hmem
        simp [mapInsert, h, ih hmem]

/-! ### Claim C1 -/

/-- A request adding a book whose ISBN `"ISBN 1"` is already stored but
whose name is empty. -/
def c1req : Request :=
  { method := Method.post, jwtCookie := none, credBody := none,
    bookBody := some { name := "", authors := [author1], isbn := "ISBN 1",
                       genre := "", pub := "" },
    isbnParam := "" }

/-- C1 (counterexample): a book whose ISBN `"ISBN 1"` is already present
in the store but whose name is empty is rejected by `AddNewBook` with
400 (invalid input), not 409 (already exists): the emptiness check runs
before the duplicate check. -/
theorem C1_counterexample :
    (mapLookup initBooks "ISBN 1").isSome = true ∧
    AddNewBook c1req initBooks = (400, initBooks) := by
  constructor
  · rfl
  · rfl

/-- C1 (amended): adding a book whose ISBN is already present always
fails with 409 AlreadyExists regardless of the other fields, provided
its name, ISBN and author list are nonempty; with an empty name or
author list the handler fails with 400 InvalidInput instead. -/
theorem C1_amended (r : Request) (books : BookDB) (b : Book)
    (hb : r.bookBody = some b)
    (hname : b.name.length ≠ 0)
    (hisbn : b.isbn.length ≠ 0)
    (hauth : b.authors.length ≠ 0)
    (hmem : (mapLookup books b.isbn).isSome) :
    AddNewBook r books = (409, books) := by
  unfold AddNewBook
  rw [hb]
  simp [hname, hisbn, hauth, hmem]

/-- C1 amended claim applied at a concrete input: duplicate ISBN with
different name, genre and publisher. -/
theorem C1_amended_witness :
    AddNewBook
      { method := Method.post, jwtCookie := none, credBody := none,
        bookBody := some { name := "Another", authors := [author2],
                           isbn := "ISBN 1", genre := "Horror",
                           pub := "Elsewhere" },
        isbnParam := "" } initBooks = (409, initBooks) :=
  C1_amended _ initBooks _ rfl (by decide) (by decide) (by decide)
    (by decide)

/-! ### Claim C2 -/

/-- The behavior of the login check for a decoded credential `c`:
404 "User not found" when the username is absent, 404 "Wrong password"
when present with a different stored password, 200 when the stored
password matches (and signing succeeds), and no cookie on any
non-200 outcome. -/
def LoginSpec (sign : SigAlg → String → Token → Option String)
    (now : Int) (r : Request) (creds : CredentialDB)
    (c : Credentials) : Prop :=
  (mapLookup creds c.username = none →
     Login sign now r creds = (404, none, "User not found")) ∧
  (∀ pw, mapLookup creds c.username = some pw → pw ≠ c.password →
     Login sign now r creds = (404, none, "Wrong password")) ∧
  (∀ s, mapLookup creds c.username = some c.password →
     sign SigAlg.HS256 Secret
       { audience := ["sabnaj"], expiration := now + 20 * 60 } = some s →
     (Login sign now r creds).1 = 200) ∧
  ((Login sign now r creds).1 ≠ 200 →
     (Login sign now r creds).2.1 = none)

/-- C2: for a request whose body decodes to credentials `c`, login
succeeds iff `c.username` is stored with exactly `c.password`; an
unknown user gets 404 "User not found", a wrong password gets 404
"Wrong password", and no failure sets a cookie. -/
theorem C2_login (sign : SigAlg → String → Token → Option String)
    (now : Int) (r : Request) (creds : CredentialDB) (c : Credentials)
    (hb : r.credBody = some c) : LoginSpec sign now r creds c := by
  refine ⟨?_, ?_, ?_, ?_⟩
  · intro h
    simp [Login, hb, h]
  · intro pw hpw hne
    simp [Login, hb, hpw, hne]
  · intro s hpw hs
    norm_num at hs
    simp [Login, hb, hpw, hs]
  · simp only [Login, hb]
    cases hm : mapLookup creds c.username with
    | none => simp
    | some pw =>
        by_cases hpw : pw = c.password
        · subst hpw
          cases hs : sign SigAlg.HS256 Secret
              { audience := ["sabnaj"], expiration := now + 20 * 60 } with
          | none => simp [hs]
          | some s => simp [hs]
        · simp [hpw]

/-- C2 applied at concrete inputs: unknown user, wrong password,
matching password on the `Init` store. -/
theorem C2_login_witness :
    LoginSpec (fun _ _ _ => some "tok") 0
      { method := Method.post, jwtCookie := none,
        credBody := some { username := "sabnaj", password := "1234" },
        bookBody := none, isbnParam := "" }
      initCreds { username := "sabnaj", password := "1234" } :=
  C2_login (fun _ _ _ => some "tok") 0 _ initCreds _ rfl

/-! ### Claim C3 -/

/-- C3: on a successful login the handler builds a token whose claim
set is exactly audience `["sabnaj"]` and expiration `now + 20 minutes`,
passes it to the signing primitive with algorithm HS256 and the
pre-shared `Secret`, and sets a cookie named `jwt` whose value is the
signed serialization and whose `Expires` equals the same expiration.
Since `sign` is universally quantified, the equation pins down exactly
which algorithm, key and claims the code hands to the library. -/
theorem C3_token_cookie (sign : SigAlg → String → Token → Option String)
    (now : Int) (r : Request) (creds : CredentialDB) (c : Credentials)
    (s : String) (hb : r.credBody = some c)
    (hpw : mapLookup creds c.username = some c.password)
    (hs : sign SigAlg.HS256 Secret
        { audience := ["sabnaj"], expiration := now + 20 * 60 } = some s) :
    Login sign now r creds =
      (200, some { name := "jwt", value := s, expires := now + 20 * 60 },
       "Login successful") := by
  norm_num at hs
  simp [Login, hb, hpw, hs]

/-- C3 applied at a concrete input: user `sabnaj` with the seeded
password, issuance time 0, a signing stub returning `"tok"`. -/
theorem C3_token_cookie_witness :
    Login (fun _ _ _ => some "tok") 0
      { method := Method.post, jwtCookie := none,
        credBody := some { username := "sabnaj", password := "1234" },
        bookBody := none, isbnParam := "" } initCreds =
      (200, some { name := "jwt", value := "tok", expires := 0 + 20 * 60 },
       "Login successful") :=
  C3_token_cookie (fun _ _ _ => some "tok") 0 _ initCreds
    { username := "sabnaj", password := "1234" } "tok" rfl rfl rfl

/-! ### Claim C4 -/

/-- The behavior of `AddNewBook` for a decoded book `b`: 400 when the
name, ISBN or author list is empty; else 409 when the ISBN is already a
key of the store; else insertion under `b`'s own ISBN with 201. -/
def AddSpec (r : Request) (books : BookDB) (b : Book) : Prop :=
  (b.name.length = 0 ∨ b.isbn.length = 0 ∨ b.authors.length = 0 →
     AddNewBook r books = (400, books)) ∧
  (b.name.length ≠ 0 → b.isbn.length ≠ 0 → b.authors.length ≠ 0 →
     (mapLookup books b.isbn).isSome →
     AddNewBook r books = (409, books)) ∧
  (b.name.length ≠ 0 → b.isbn.length ≠ 0 → b.authors.length ≠ 0 →
     (mapLookup books b.isbn).isSome = false →
     AddNewBook r books = (201, mapInsert books b.isbn b))

/-- C4: for a body that decodes to book `b`, `AddNewBook` rejects empty
name/ISBN/authors with 400, rejects a duplicate ISBN with 409, and
otherwise inserts `b` under its ISBN and responds 201 Created. -/
theorem C4_add (r : Request) (books : BookDB) (b : Book)
    (hb : r.bookBody = some b) : AddSpec r books b := by
  refine ⟨?_, ?_, ?_⟩
  · intro h
    simp only [AddNewBook, hb]
    rcases h with h | h | h <;> simp [h]
  · intro h1 h2 h3 hmem
    simp [AddNewBook, hb, h1, h2, h3, hmem]
  · intro h1 h2 h3 hmem
    simp [AddNewBook, hb, h1, h2, h3, hmem]

/-- C4 applied at a concrete input: a fresh, fully populated book is
inserted into the `Init` store with 201. -/
theorem C4_add_witness :
    AddNewBook
      { method := Method.post, jwtCookie := none, credBody := none,
        bookBody := some { name := "Dune", authors := [author1],
                           isbn := "ISBN 9", genre := "SF", pub := "Ace" },
        isbnParam := "" } initBooks =
      (201, mapInsert initBooks "ISBN 9"
        { name := "Dune", authors := [author1], isbn := "ISBN 9",
          genre := "SF", pub := "Ace" }) :=
  (C4_add _ initBooks _ rfl).2.2 (by decide) (by decide) (by decide)
    (by decide)

/-! ### Claim C5 -/

/-- A request updating the absent ISBN `"ISBN 9"` with a body that does
not decode. -/
def c5req : Request :=
  { method := Method.put, jwtCookie := none, credBody := none,
    bookBody := none, isbnParam := "ISBN 9" }

/-- C5 (counterexample): when the ISBN is absent AND the body does not
decode, the claim (reading its clauses in order) requires 400 for the
undecodable body, but the handler checks existence before decoding and
returns 404. -/
theorem C5_counterexample :
    (updateBook c5req initBooks).1 = 404 ∧
    ¬ (updateBook c5req initBooks).1 = 400 := by
  decide

/-- The behavior of `updateBook` with the source's check order: empty
ISBN parameter first (400), then existence of the key (404), then body
decoding (400), else wholesale replacement at the key (200). -/
def UpdateSpec (r : Request) (books : BookDB) : Prop :=
  (r.isbnParam.length = 0 →
     updateBook r books = (400, books, "Invalid ISBN")) ∧
  (r.isbnParam.length ≠ 0 →
     (mapLookup books r.isbnParam).isSome = false →
     updateBook r books = (404, books, "Book does not exist")) ∧
  (r.isbnParam.length ≠ 0 → (mapLookup books r.isbnParam).isSome →
     r.bookBody = none →
     updateBook r books = (400, books, "Cannot decode data")) ∧
  (∀ nb, r.isbnParam.length ≠ 0 →
     (mapLookup books r.isbnParam).isSome → r.bookBody = some nb →
     updateBook r books =
       (200, mapInsert books r.isbnParam nb, "Book updated successfully"))

/-- C5 (amended): `updateBook` fails 400 on an empty ISBN parameter;
else fails 404 when the ISBN is not a key of the store (even when the
body would also fail to decode, since existence is checked before
decoding); else fails 400 when the body does not decode; otherwise it
replaces the entire record at that ISBN and responds 200 with a text
body. -/
theorem C5_amended (r : Request) (books : BookDB) : UpdateSpec r books := by
  refine ⟨?_, ?_, ?_, ?_⟩
  · intro h
    simp [updateBook, h]
  · intro h1 h2
    simp [updateBook, h1, h2]
  · intro h1 h2 h3
    simp [updateBook, h1, h2, h3]
  · intro nb h1 h2 h3
    simp [updateBook, h1, h2, h3]

/-- C5 amended claim applied at a concrete input: a present ISBN with a
decodable body is replaced wholesale with 200. -/
theorem C5_amended_witness :
    updateBook
      { method := Method.put, jwtCookie := none, credBody := none,
        bookBody := some book2, isbnParam := "ISBN 1" } initBooks =
      (200, mapInsert initBooks "ISBN 1" book2,
       "Book updated successfully") :=
  (C5_amended _ initBooks).2.2.2 book2 (by decide) (by decide) rfl

/-! ### Claim C6 -/

/-- Registering a fresh username succeeds with 201 and stores the
password; a second registration of the same username fails with 409
and leaves the first password in place. -/
def SignInTwiceSpec (r1 r2 : Request) (creds : CredentialDB)
    (u p : String) : Prop :=
  SignIn r1 creds =
    (201, mapInsert creds u p,
     "User " ++ u ++ " registered successfully") ∧
  mapLookup (mapInsert creds u p) u = some p ∧
  SignIn r2 (mapInsert creds u p) =
    (409, mapInsert creds u p, "User already exists") ∧
  mapLookup (SignIn r2 (mapInsert creds u p)).2.1 u = some p

/-- C6: for a username `u` absent from the credential store, a POST
registration with password `p` responds 201 and adds the mapping
`u ↦ p`; a subsequent POST registration of `u` with any password `p2`
responds 409 AlreadyExists and the stored password for `u` is still
`p`. -/
theorem C6_signin_twice (r1 r2 : Request) (creds : CredentialDB)
    (u p p2 : String)
    (h1m : r1.method = Method.post)
    (h1b : r1.credBody = some { username := u, password := p })
    (h2m : r2.method = Method.post)
    (h2b : r2.credBody = some { username := u, password := p2 })
    (habs : mapLookup creds u = none) :
    SignInTwiceSpec r1 r2 creds u p := by
  have hins : mapLookup (mapInsert creds u p) u = some p :=
    mapLookup_mapInsert_self creds u p
  have h2 : SignIn r2 (mapInsert creds u p) =
      (409, mapInsert creds u p, "User already exists") := by
    simp [SignIn, h2m, h2b, hins]
  refine ⟨?_, hins, h2, ?_⟩
  · simp [SignIn, h1m, h1b, habs]
  · rw [h2]
    exact hins

/-- C6 applied at concrete inputs: registering `alice`/`pw1` on the
`Init` store, then `alice`/`pw2`. -/
theorem C6_signin_twice_witness :
    SignInTwiceSpec
      { method := Method.post, jwtCookie := none,
        credBody := some { username := "alice", password := "pw1" },
        bookBody := none, isbnParam := "" }
      { method := Method.post, jwtCookie := none,
        credBody := some { username := "alice", password := "pw2" },
        bookBody := none, isbnParam := "" }
      initCreds "alice" "pw1" :=
  C6_signin_twice _ _ initCreds "alice" "pw1" "pw2" rfl rfl rfl rfl
    (by decide)

/-! ### Claim C7 -/

/-- Every failing outcome of a mutating handler leaves its store
exactly as it was: `SignIn` mutates only on 201, `AddNewBook` only on
201, `updateBook` only on 200, `deleteBook` only on 200; `Login` and
`Logout` never mutate (their results do not carry a changed store by
construction). -/
def NoMutationOnFailure (r : Request) (creds : CredentialDB)
    (books : BookDB) : Prop :=
  ((SignIn r creds).1 ≠ 201 → (SignIn r creds).2.1 = creds) ∧
  ((AddNewBook r books).1 ≠ 201 → (AddNewBook r books).2 = books) ∧
  ((updateBook r books).1 ≠ 200 → (updateBook r books).2.1 = books) ∧
  ((deleteBook r books).1 ≠ 200 → (deleteBook r books).2 = books)

/-- C7: for every request and every pair of stores, if a mutating
handler fails (any non-success status) then the store it touches is
returned unchanged: every failure path returns before the single map
mutation, so no partially-applied mutation exists. -/
theorem C7_no_partial_failure (r : Request) (creds : CredentialDB)
    (books : BookDB) : NoMutationOnFailure r creds books := by
  refine ⟨?_, ?_, ?_, ?_⟩
  · intro h
    by_cases hm : r.method = Method.post
    · cases hb : r.credBody with
      | none => simp [SignIn, hm, hb]
      | some user =>
          by_cases hdup : (mapLookup creds user.username).isSome
          · simp [SignIn, hm, hb, hdup]
          · exact absurd (by simp [SignIn, hm, hb, hdup]) h
    · simp [SignIn, hm]
  · intro h
    cases hb : r.bookBody with
    | none => simp [AddNewBook, hb]
    | some book =>
        by_cases hempty : book.name.length = 0 ∨ book.isbn.length = 0 ∨
            book.authors.length = 0
        · rcases hempty with h1 | h1 | h1
          · simp [AddNewBook, hb, h1]
          · simp [AddNewBook, hb, h1]
          · simp [AddNewBook, hb, List.length_eq_zero.mp h1]
        · push_neg at hempty
          obtain ⟨h1, h2, h3⟩ := hempty
          by_cases hdup : (mapLookup books book.isbn).isSome
          · simp [AddNewBook, hb, h1, h2, h3, hdup]
          · exact absurd (by simp [AddNewBook, hb, h1, h2, h3, hdup]) h
  · intro h
    by_cases hi : r.isbnParam.length = 0
    · simp [updateBook, hi]
    · by_cases hmem : (mapLookup books r.isbnParam).isSome
      · cases hb : r.bookBody with
        | none => simp [updateBook, hi, hmem, hb]
        | some nb =>
            exact absurd (by simp [updateBook, hi, hmem, hb]) h
      · simp [updateBook, hi, hmem]
  · intro h
    by_cases hi : r.isbnParam.length = 0
    · simp [deleteBook, hi]
    · by_cases hmem : (mapLookup books r.isbnParam).isSome
      · exact absurd (by simp [deleteBook, hi, hmem]) h
      · simp [deleteBook, hi, hmem]

/-- C7 applied at a concrete input: adding a duplicate ISBN fails and
the book store is unchanged. -/
theorem C7_no_partial_failure_witness :
    (AddNewBook
      { method := Method.post, jwtCookie := none, credBody := none,
        bookBody := some book1, isbnParam := "" } initBooks).2 =
      initBooks :=
  (C7_no_partial_failure
    { method := Method.post, jwtCookie := none, credBody := none,
      bookBody := some book1, isbnParam := "" } initCreds initBooks).2.1
    (by decide)

/-! ### Claim C8 -/

/-- The four book-CRUD handlers give identical responses and identical
resulting stores on two requests. -/
def CookieIrrelevant (r1 r2 : Request) (books : BookDB) : Prop :=
  getAllBooks r1 books = getAllBooks r2 books ∧
  AddNewBook r1 books = AddNewBook r2 books ∧
  updateBook r1 books = updateBook r2 books ∧
  deleteBook r1 books = deleteBook r2 books

/-- C8: two book-CRUD requests that agree on everything except the
session cookie they carry (one may carry none) produce identical
responses and identical resulting book stores: no handler reads the
`jwt` cookie, so no session validation guards the Book Store. -/
theorem C8_cookie_irrelevant (r1 r2 : Request) (books : BookDB)
    (hm : r1.method = r2.method) (hc : r1.credBody = r2.credBody)
    (hb : r1.bookBody = r2.bookBody) (hi : r1.isbnParam = r2.isbnParam) :
    CookieIrrelevant r1 r2 books := by
  unfold CookieIrrelevant getAllBooks AddNewBook updateBook deleteBook
  rw [hb, hi]
  exact ⟨rfl, rfl, rfl, rfl⟩

/-- C8 applied at a concrete input: the same delete request with and
without a `jwt` cookie. -/
theorem C8_cookie_irrelevant_witness :
    CookieIrrelevant
      { method := Method.delete, jwtCookie := some "some.jwt.token",
        credBody := none, bookBody := none, isbnParam := "ISBN 1" }
      { method := Method.delete, jwtCookie := none,
        credBody := none, bookBody := none, isbnParam := "ISBN 1" }
      initBooks :=
  C8_cookie_irrelevant _ _ initBooks rfl rfl rfl rfl

/-! ### Claim C9 -/

/-- A request carrying a live session cookie, as a logout input. -/
def c9req : Request :=
  { method := Method.post, jwtCookie := some "live.jwt.token",
    credBody := none, bookBody := none, isbnParam := "" }

/-- C9 (counterexample): the `jwt` cookie `Logout` emits has
`Expires = time.Now()`, the very moment the response is produced, so
its expiry is NOT strictly in the past at that moment: at `now = 0`
the cookie expires at `0`, and `0 < 0` is false. -/
theorem C9_counterexample :
    (Logout 0 c9req initCreds initBooks).2.1.expires = 0 ∧
    ¬ (Logout 0 c9req initCreds initBooks).2.1.expires < 0 := by
  decide

/-- `Logout` responds 200 with a `jwt` cookie overwrite whose expiry
equals the handling time `now` (hence expired at every strictly later
instant), and both stores are returned untouched. -/
def LogoutSpec (now : Int) (r : Request) (creds : CredentialDB)
    (books : BookDB) : Prop :=
  Logout now r creds books =
    (200, { name := "jwt", value := "", expires := now }, creds, books) ∧
  ∀ t : Int, now < t → (Logout now r creds books).2.1.expires < t

/-- C9 (amended): for every request, `Logout` responds 200 and emits an
overwrite of the `jwt` cookie whose `Expires` equals the current time
at handling — not strictly in the past at that instant, but expired at
every strictly later one — and it never fails and never modifies either
store. -/
theorem C9_amended (now : Int) (r : Request) (creds : CredentialDB)
    (books : BookDB) : LogoutSpec now r creds books := by
  constructor
  · rfl
  · intro t ht
    exact ht

/-- C9 amended claim applied at a concrete input: at `now = 0` the
emitted cookie is expired at every later instant, e.g. `t = 1`. -/
theorem C9_amended_witness :
    (Logout 0 c9req initCreds initBooks).2.1.expires < 1 :=
  (C9_amended 0 c9req initCreds initBooks).2 1 (by decide)

/-! ### Claim C10 -/

/-- A successful update at key `k` stores the decoded book verbatim
under `k`, leaves the key set unchanged, and the record then found at
`k` is the new book (whose own ISBN field need not equal `k`); `Add`,
by contrast, stores a book under its own ISBN field. -/
def UpdateVerbatimSpec (r : Request) (books : BookDB) (nb : Book) : Prop :=
  updateBook r books =
    (200, mapInsert books r.isbnParam nb, "Book updated successfully") ∧
  mapLookup (mapInsert books r.isbnParam nb) r.isbnParam = some nb ∧
  (mapInsert books r.isbnParam nb).map Prod.fst = books.map Prod.fst ∧
  (∀ (r2 : Request) (b : Book), r2.bookBody = some b →
     b.name.length ≠ 0 → b.isbn.length ≠ 0 → b.authors.length ≠ 0 →
     (mapLookup books b.isbn).isSome = false →
     AddNewBook r2 books = (201, mapInsert books b.isbn b))

/-- C10: for a key present in the store and a decoded body `nb`, a
successful update stores `nb` verbatim under the URL-parameter key,
the key set is unchanged, and the record retrieved at the key has ISBN
field `nb.isbn`, which may differ from the key (the witness exhibits
such a mismatch), whereas `AddNewBook` always stores a book under its
own ISBN field. -/
theorem C10_update_verbatim (r : Request) (books : BookDB) (nb : Book)
    (hi : r.isbnParam.length ≠ 0)
    (hmem : (mapLookup books r.isbnParam).isSome)
    (hb : r.bookBody = some nb) :
    UpdateVerbatimSpec r books nb := by
  refine ⟨?_, mapLookup_mapInsert_self books r.isbnParam nb,
    mapInsert_keys books r.isbnParam nb hmem, ?_⟩
  · simp [updateBook, hi, hmem, hb]
  · intro r2 b hb2 h1 h2 h3 habs
    simp [AddNewBook, hb2, h1, h2, h3, habs]

/-- C10 applied at a concrete input: the record stored at key
`"ISBN 1"` is `book2`, whose own ISBN field `"ISBN 2"` differs from the
key, so the store then holds an entry whose key differs from its
record's ISBN field. -/
theorem C10_update_verbatim_witness :
    book2.isbn ≠ "ISBN 1" ∧
    UpdateVerbatimSpec
      { method := Method.put, jwtCookie := none, credBody := none,
        bookBody := some book2, isbnParam := "ISBN 1" } initBooks book2 :=
  ⟨by decide,
   C10_update_verbatim _ initBooks book2 (by decide) (by decide) rfl⟩

end BookServer
